import Mathlib

/-!
# Verification of the pystorcli2 command-execution and response-interpretation layer

This file gives a shallow embedding of the core of the `pystorcli2` repository:
the `StorCLI.run` command executor (`pystorcli2/storcli.py`), the response
helpers (`pystorcli2/common.py`) and the error-code table
(`pystorcli2/errors.py`), together with theorems settling the stated
properties of that layer.

JSON values are modelled by the inductive type `JVal`; Python dictionaries
become association lists over `String` keys (insertion keeps the position of
an existing key, as a Python dict does).  Python exceptions become the
`RunError` sum type and fallible code returns `Except RunError`.  The
subprocess runner is modelled, as the repository test suite does, by a
deterministic function from the full command line to a captured result.
-/

set_option autoImplicit false
set_option maxRecDepth 100000

/-- A JSON value as produced by `json.loads`.  Numbers are restricted to the
integers, the only numeric form the verified properties exercise. -/
inductive JVal where
  | jstr (s : String)
  | jnum (n : Int)
  | jbool (b : Bool)
  | jnull
  | jarr (elems : List JVal)
  | jobj (fields : List (String × JVal))

/-- First-match association-list lookup, the read side of a Python dict. -/
def lookupKey {α : Type} : List (String × α) → String → Option α
  | [], _ => none
  | (k, v) :: rest, key => if k = key then some v else lookupKey rest key

/-- Python dict assignment `d[k] = v`: replace the value of an existing key in
place, otherwise append the new pair at the end. -/
def objInsert {α : Type} : List (String × α) → String → α → List (String × α)
  | [], key, v => [(key, v)]
  | (k, v0) :: rest, key, v =>
    if k = key then (k, v) :: rest else (k, v0) :: objInsert rest key v

/-- Top-level keys of a JSON object (empty for non-objects); a convenient
discriminator between structurally different objects. -/
def jTopKeys : JVal → List String
  | .jobj fields => fields.map Prod.fst
  | _ => []

/-! ## A model of `json.loads`

A strict recursive-descent JSON reader over the character list of the input,
structurally recursive on a fuel argument so that it evaluates by kernel
reduction.  It covers the subset of JSON the verified properties exercise:
objects, arrays, strings with the single-character escapes, integers, and the
three literals.  (Floats and `\u` escapes are outside the subset; theorems
about successful decoding only ever hypothesise the decoding result.) -/

/-- JSON whitespace as skipped by Python `json.loads`. -/
def skipWs : List Char → List Char
  | c :: cs =>
    if c = ' ' || c = '\t' || c = '\n' || c = '\r' then skipWs cs else c :: cs
  | [] => []

/-- Opening brace character, written by code so that no brace appears in a
string literal. -/
def lbrace : Char := Char.ofNat 123

/-- Closing brace character. -/
def rbrace : Char := Char.ofNat 125

/-- Boolean list-prefix test. -/
def listPrefix : List Char → List Char → Bool
  | [], _ => true
  | _ :: _, [] => false
  | a :: as, b :: bs => a == b && listPrefix as bs

/-- Body of a JSON string after the opening quote: returns the decoded string
and the remaining input, or `none` on a bad escape or missing close quote. -/
def parseStringBody : Nat → List Char → List Char → Option (String × List Char)
  | 0, _, _ => none
  | Nat.succ fuel, cs, acc =>
    match cs with
    | [] => none
    | c :: rest =>
      if c = '"' then some (⟨acc.reverse⟩, rest)
      else if c = '\\' then
        match rest with
        | [] => none
        | e :: rest2 =>
          let esc : Option Char :=
            if e = '"' then some '"'
            else if e = '\\' then some '\\'
            else if e = '/' then some '/'
            else if e = 'n' then some '\n'
            else if e = 't' then some '\t'
            else if e = 'r' then some '\r'
            else if e = 'b' then some (Char.ofNat 8)
            else if e = 'f' then some (Char.ofNat 12)
            else none
          match esc with
          | some d => parseStringBody fuel rest2 (d :: acc)
          | none => none
      else parseStringBody fuel rest (c :: acc)

/-- A non-empty digit run, accumulated as a natural number. -/
def parseNumDigits : Nat → List Char → Nat → Bool → Option (Nat × List Char)
  | 0, cs, acc, seen => if seen then some (acc, cs) else none
  | Nat.succ fuel, cs, acc, seen =>
    match cs with
    | [] => if seen then some (acc, []) else none
    | c :: rest =>
      if c.isDigit then parseNumDigits fuel rest (acc * 10 + (c.toNat - 48)) true
      else if seen then some (acc, cs) else none

/-- Mode of the JSON reader: a value, the tail of an array after the opening
bracket, or the tail of an object after the opening brace. -/
inductive JMode where
  | value
  | arrTail (acc : List JVal)
  | objTail (acc : List (String × JVal))

/-- The JSON reader.  One recursive function over fuel so that every equation
is structural and reduces in the kernel. -/
def parseJM : Nat → JMode → List Char → Option (JVal × List Char)
  | 0, _, _ => none
  | Nat.succ fuel, JMode.value, cs0 =>
    let cs := skipWs cs0
    match cs with
    | [] => none
    | c :: rest =>
      if c = '"' then
        match parseStringBody (rest.length + 1) rest [] with
        | some (s, r) => some (JVal.jstr s, r)
        | none => none
      else if c = lbrace then
        match skipWs rest with
        | [] => none
        | d :: r2 =>
          if d = rbrace then some (JVal.jobj [], r2)
          else parseJM fuel (JMode.objTail []) (d :: r2)
      else if c = '[' then
        match skipWs rest with
        | [] => none
        | d :: r2 =>
          if d = ']' then some (JVal.jarr [], r2)
          else parseJM fuel (JMode.arrTail []) (d :: r2)
      else if listPrefix "true".data cs then some (JVal.jbool true, cs.drop 4)
      else if listPrefix "false".data cs then some (JVal.jbool false, cs.drop 5)
      else if listPrefix "null".data cs then some (JVal.jnull, cs.drop 4)
      else if c = '-' then
        match parseNumDigits (rest.length + 1) rest 0 false with
        | some (n, r) => some (JVal.jnum (-(n : Int)), r)
        | none => none
      else
        match parseNumDigits (cs.length + 1) cs 0 false with
        | some (n, r) => some (JVal.jnum (n : Int), r)
        | none => none
  | Nat.succ fuel, JMode.arrTail acc, cs =>
    match parseJM fuel JMode.value cs with
    | none => none
    | some (v, r) =>
      match skipWs r with
      | [] => none
      | c :: r2 =>
        if c = ',' then parseJM fuel (JMode.arrTail (acc ++ [v])) r2
        else if c = ']' then some (JVal.jarr (acc ++ [v]), r2)
        else none
  | Nat.succ fuel, JMode.objTail acc, cs0 =>
    match skipWs cs0 with
    | [] => none
    | c :: rest =>
      if c = '"' then
        match parseStringBody (rest.length + 1) rest [] with
        | none => none
        | some (k, r) =>
          match skipWs r with
          | [] => none
          | d :: r2 =>
            if d = ':' then
              match parseJM fuel JMode.value r2 with
              | none => none
              | some (v, r3) =>
                match skipWs r3 with
                | [] => none
                | e :: r4 =>
                  if e = ',' then parseJM fuel (JMode.objTail (objInsert acc k v)) r4
                  else if e = rbrace then some (JVal.jobj (objInsert acc k v), r4)
                  else none
            else none
      else none

/-- The model of `json.loads`: decode the whole input, requiring nothing but
whitespace after the value, and return `none` on any decode error (Python
raises `json.JSONDecodeError` there). -/
def jsonLoads (s : String) : Option JVal :=
  match parseJM (s.data.length + 2) JMode.value s.data with
  | some (v, r) => if (skipWs r).isEmpty then some v else none
  | none => none

/-! ## The error-code table (`pystorcli2/errors.py`)

The `StorcliError` enum is modelled as a list of entries in declaration
order; `StorcliError.get` is the linear scan of the enum members performed by
the Python `get` static method. -/

/-- One member of the `StorcliError` enum: numeric code, short description
and detailed description (the three components of the Python tuple value). -/
structure ErrEntry where
  code : Int
  short : String
  detailed : String
  deriving DecidableEq

/-- `StorcliError.description`: the short description when non-empty,
otherwise the detailed one. -/
def ErrEntry.description (e : ErrEntry) : String :=
  if e.short.length = 0 then e.detailed else e.short

namespace StorcliError

/-- The `INVALID_STATUS` sentinel member (code 255). -/
def INVALID_STATUS : ErrEntry :=
  ErrEntry.mk 255 "" "Invalid status - used for polling command completion."

/-- The `StorcliError` members, in declaration order. -/
def table : List ErrEntry := [
  ErrEntry.mk 0 "" "Command completed successfully.",
  ErrEntry.mk 1 "" "Invalid command.",
  ErrEntry.mk 2 "" "DCMD opcode is invalid.",
  ErrEntry.mk 3 "" "Input parameters are invalid.",
  ErrEntry.mk 4 "" "Invalid sequence number.",
  ErrEntry.mk 5 "" "Abort is not possible for the requested command.",
  ErrEntry.mk 6 "" "Application \x27host\x27 code not found.",
  ErrEntry.mk 7 "" "Application already in use - try later.",
  ErrEntry.mk 8 "" "Application not initialized.",
  ErrEntry.mk 9 "" "Given array index is invalid.",
  ErrEntry.mk 10 "" "Unable to add the missing drive to array, as row has no empty slots.",
  ErrEntry.mk 11 "" "Some of the CFG resources conflict with each other or the current config.",
  ErrEntry.mk 12 "" "Invalid device ID / select-timeout.",
  ErrEntry.mk 13 "" "Drive is too small for the requested operation.",
  ErrEntry.mk 14 "" "Flash memory allocation failed.",
  ErrEntry.mk 15 "" "Flash download already in progress.",
  ErrEntry.mk 16 "" "Flash operation failed.",
  ErrEntry.mk 17 "" "Flash image was bad.",
  ErrEntry.mk 18 "" "Downloaded flash image is incomplete.",
  ErrEntry.mk 19 "" "Flash OPEN was not done.",
  ErrEntry.mk 20 "" "Flash sequence is not active.",
  ErrEntry.mk 21 "" "Flush command failed.",
  ErrEntry.mk 22 "" "Specified application does not have host-resident code.",
  ErrEntry.mk 23 "" "LD operation not possible - CC is in progress.",
  ErrEntry.mk 24 "" "LD initialization in progress.",
  ErrEntry.mk 25 "" "LBA is out of range.",
  ErrEntry.mk 26 "" "Maximum LDs are already configured.",
  ErrEntry.mk 27 "" "LD is not OPTIMAL.",
  ErrEntry.mk 28 "" "LD Rebuild is in progress.",
  ErrEntry.mk 29 "" "LD is undergoing reconstruction.",
  ErrEntry.mk 30 "" "LD RAID level is wrong for the requested operation.",
  ErrEntry.mk 31 "" "Too many spares assigned.",
  ErrEntry.mk 32 "" "Scratch memory not available, try the command again later.",
  ErrEntry.mk 33 "" "Error writing MFC data to SEEPROM.",
  ErrEntry.mk 34 "" "Required HW is missing (for example, Alarm or BBU).",
  ErrEntry.mk 35 "" "Item not found.",
  ErrEntry.mk 36 "" "LD drives are not within an enclosure.",
  ErrEntry.mk 37 "" "PD CLEAR operation is in progress.",
  ErrEntry.mk 38 "" "Unable to use SATA(SAS) drive to replace SAS(SATA).",
  ErrEntry.mk 39 "" "Patrol Read is disabled.",
  ErrEntry.mk 40 "" "Given row index is invalid.",
  ErrEntry.mk 45 "" "SCSI command done, but non-GOOD status was received-see mf.hdr.extStatus for SCSI_STATUS.",
  ErrEntry.mk 46 "" "IO request for MFI_CMD_OP_PD_SCSI failed - see extStatus for DM error.",
  ErrEntry.mk 47 "" "Matches SCSI RESERVATION_CONFLICT.",
  ErrEntry.mk 48 "" "One or more of the flush operations failed.",
  ErrEntry.mk 49 "" "Firmware real-time currently not set.",
  ErrEntry.mk 50 "" "Command issues while firmware is in the wrong state (for example, GET RECON when op not active).",
  ErrEntry.mk 51 "" "LD is not OFFLINE - IO not possible.",
  ErrEntry.mk 52 "" "Peer controller rejected request (possibly due to a resource conflict).",
  ErrEntry.mk 53 "" "Unable to inform peer of communication changes (retry might be appropriate).",
  ErrEntry.mk 54 "" "LD reservation already in progress.",
  ErrEntry.mk 55 "" "I2C errors were detected.",
  ErrEntry.mk 56 "" "PCI errors occurred during XOR/DMA operation.",
  ErrEntry.mk 57 "" "Diagnostics failed, see the event log for details.",
  ErrEntry.mk 58 "" "Unable to process command as boot messages are pending.",
  ErrEntry.mk 59 "Incomplete foreign configuration" "Returned in case if foreign configurations are incomplete.",
  ErrEntry.mk 61 "" "Returned when a command is tried on unsupported hardware.",
  ErrEntry.mk 62 "" "CC scheduling is disabled.",
  ErrEntry.mk 63 "" "PD CopyBack operation is in progress.",
  ErrEntry.mk 64 "" "Selected more than one PD per array.",
  ErrEntry.mk 65 "" "Microcode update operation failed.",
  ErrEntry.mk 66 "" "Unable to process the command as the drive security feature is not enabled.",
  ErrEntry.mk 67 "" "Controller already has a lock key.",
  ErrEntry.mk 68 "" "Lock key cannot be backed-up.",
  ErrEntry.mk 69 "" "Lock key backup cannot be verified.",
  ErrEntry.mk 70 "" "Lock key from backup failed verification.",
  ErrEntry.mk 71 "" "Rekey operation not allowed, unless controller already has a lock key.",
  ErrEntry.mk 72 "" "Lock key is not valid, cannot authenticate.",
  ErrEntry.mk 73 "" "Lock key from escrow cannot be used.",
  ErrEntry.mk 74 "" "Lock key backup (pass-phrase) is required.",
  ErrEntry.mk 75 "" "Secure LD exists.",
  ErrEntry.mk 76 "" "LD secure operation is not allowed.",
  ErrEntry.mk 77 "" "Reprovisioning is not allowed.",
  ErrEntry.mk 78 "" "Drive security type (FDE or non-FDE) is not appropriate for the requested operation.",
  ErrEntry.mk 79 "" "LD encryption type is not supported.",
  ErrEntry.mk 80 "" "Cannot mix FDE and non-FDE drives in same array.",
  ErrEntry.mk 81 "" "Cannot mix secure and unsecured LD in same array.",
  ErrEntry.mk 82 "" "Secret key not allowed.",
  ErrEntry.mk 83 "" "Physical device errors were detected.",
  ErrEntry.mk 84 "" "Controller has LD cache pinned.",
  ErrEntry.mk 85 "" "Requested operation is already in progress.",
  ErrEntry.mk 86 "" "Another power state set operation is in progress.",
  ErrEntry.mk 87 "" "Power state of device is not correct.",
  ErrEntry.mk 88 "" "No PD is available for patrol read.",
  ErrEntry.mk 89 "" "Controller reset is required.",
  ErrEntry.mk 90 "" "No EKM boot agent detected.",
  ErrEntry.mk 91 "" "No space on the snapshot repository VD.",
  ErrEntry.mk 92 "" "For consistency SET PiTs, some PiT creations might fail and some succeed.",
  ErrEntry.mk 93 "" "Secondary iButton cannot be used and is incompatible with controller.",
  ErrEntry.mk 94 "" "PFK does not match or cannot be applied to the controller.",
  ErrEntry.mk 95 "" "Maximum allowed unconfigured (configurable) PDs exist.",
  ErrEntry.mk 96 "" "IO metrics are not being collected.",
  ErrEntry.mk 97 "" "AEC capture must be stopped before proceeding.",
  ErrEntry.mk 98 "" "Unsupported level of protection information.",
  ErrEntry.mk 99 "" "PDs in LD have incompatible EEDP types.",
  ErrEntry.mk 100 "" "Request cannot be completed because protection information is not enabled.",
  ErrEntry.mk 101 "" "PDs in LD have different block sizes.",
  ErrEntry.mk 102 "" "LD Cached data is present on a (this) SSCD.",
  ErrEntry.mk 103 "" "Config sequence number mismatch.",
  ErrEntry.mk 104 "" "Flash image is not supported.",
  ErrEntry.mk 105 "" "Controller cannot be online-reset.",
  ErrEntry.mk 106 "" "Controller booted to safe mode, command is not supported in this mode.",
  ErrEntry.mk 107 "" "SSC memory is unavailable to complete the operation.",
  ErrEntry.mk 108 "" "Peer node is incompatible.",
  ErrEntry.mk 109 "" "Dedicated hot spare assignment is limited to array(s) with same LDs.",
  ErrEntry.mk 110 "" "Signed component is not part of the image.",
  ErrEntry.mk 111 "" "Authentication failure of the signed firmware image.",
  ErrEntry.mk 112 "" "Flashing was ok but FW restart is not required, ex: No change in FW from current.",
  ErrEntry.mk 113 "" "Firmware is in some form of restricted mode, example: passive in A/P HA mode.",
  ErrEntry.mk 114 "" "The maximum number of entries are exceeded.",
  ErrEntry.mk 115 "" "Cannot start the subsequent flush because the previous flush is still active.",
  ErrEntry.mk 116 "" "Status is ok but a reboot is need for the change to take effect.",
  ErrEntry.mk 117 "" "Cannot perform the operation because the background operation is still in progress.",
  ErrEntry.mk 118 "" "Operation is not possible.",
  ErrEntry.mk 119 "" "Firmware update on the peer node is in progress.",
  ErrEntry.mk 120 "" "Hidden policy is not set for all of the virtual drives in the drive group that contains this virtual drive.",
  ErrEntry.mk 121 "" "Indicates that there are one or more secure system drives in the system.",
  ErrEntry.mk 122 "" "Boot LD cannot be hidden.",
  ErrEntry.mk 123 "" "The LD count is greater than the maximum transportable LD count.",
  ErrEntry.mk 124 "" "DHSP is associated with more than one disk group. Force is needed if dcmd.mbox.b[5] is 0.",
  ErrEntry.mk 125 "" "The operation not possible because the configuration has some LDs in a transport ready state.",
  ErrEntry.mk 126 "" "The IO request encountered a SCSI DATA UNDERRUN, MFI_HDR.length. The length is set to bytes transferred.",
  ErrEntry.mk 127 "" "Firmware flash is not allowed in the current mode.",
  ErrEntry.mk 128 "" "The operation is not possible because the device is in a transport ready state.",
  ErrEntry.mk 129 "" "The operation is not possible because the LD is in a transport ready state.",
  ErrEntry.mk 130 "" "The operation is not possible because the LD is not in a transport ready state.",
  ErrEntry.mk 131 "" "The operation is not possible because the PD in a removal ready state.",
  ErrEntry.mk 132 "" "The status is ok, but a host reboot is required for the changes to take effect.",
  ErrEntry.mk 133 "" "A microcode update is pending on the device.",
  ErrEntry.mk 134 "" "A microcode update is in progress on the device.",
  ErrEntry.mk 135 "" "There is a mismatch between the drive type and the erase option.",
  ErrEntry.mk 136 "" "The operation is not possible because an automatically created configuration exists.",
  ErrEntry.mk 137 "" "A secure EPD or EPD-PASSTHRU device exists.",
  ErrEntry.mk 138 "" "The operation is not possible because the host FRU data is invalid.",
  ErrEntry.mk 139 "" "The operation is not possible because the controller FRU data is invalid.",
  ErrEntry.mk 140 "" "The requested image not found.",
  ErrEntry.mk 141 "" "NVCache related error.",
  ErrEntry.mk 142 "" "The requested LD size is less than MINIMUM SIZE LIMIT.",
  ErrEntry.mk 143 "" "The requested drive count is invalid for this raid level.",
  ErrEntry.mk 144 "" "An OEM-specific backplane authentication failure.",
  ErrEntry.mk 145 "" "The OEM-specific backplane not found.",
  ErrEntry.mk 146 "" "Flashing the image is not possible because the downloaded and running firmware on the controller are same.",
  ErrEntry.mk 147 "" "Unmap is not supported on the device or the controller.",
  ErrEntry.mk 148 "" "The device does not support the sanitize type that is specified.",
  ErrEntry.mk 149 "" "A valid Snapdump is unavailable.",
  ErrEntry.mk 150 "" "The Snapdump feature is not enabled.",
  ErrEntry.mk 151 "" "The LD or device does not support the requested policy.",
  ErrEntry.mk 152 "" "The requested operation cannot be performed because of an existing configuration.",
  ErrEntry.mk 153 "" "The status is ok, but a shutdown is required to take effect.",
  ErrEntry.mk 154 "" "The PD cannot participate in a RAID configuration.",
  ErrEntry.mk 155 "" "Secure boot needs another key slot and the eFUSE is full.",
  ErrEntry.mk 156 "" "Clear Snapdump before proceeding.",
  ErrEntry.mk 157 "" "The operation is not possible because one or more non unmap drives are used.",
  ErrEntry.mk 158 "" "The firmware image will disable the firmware device re-ordering.",
  ErrEntry.mk 159 "" "New firmware download is not allowed due to a Secure Boot pending key change.",
  ErrEntry.mk 160 "" "DPM only supports in EXT format.",
  ErrEntry.mk 161 "" "The NVMe repair command failed.",
  ErrEntry.mk 162 "" "The NVMe repair command is already in progress for this device.",
  ErrEntry.mk 163 "" "The NVMe repair status displays there is no repair in progress for this device.",
  ErrEntry.mk 164 "" "The imported certificate chain failed the firmware validation.",
  ErrEntry.mk 165 "" "The contents of the specified slot cannot be altered.",
  ErrEntry.mk 166 "" "The import initiated without an export or another import in process.",
  ErrEntry.mk 167 "" "Another export operation is in process.",
  ErrEntry.mk 168 "" "The configuration page read command failed.",
  ErrEntry.mk 169 "" "Failed to authenticate due to an invalid key pair or certificate.",
  ErrEntry.mk 170 "" "The certificate page read succeeded, but this page is not yet present in MPB.",
  ErrEntry.mk 171 "" "Lock key passphrase is incorrect, the user may retry.",
  ErrEntry.mk 172 "" "Lock key passphrase try count is exceeded, a reboot is required.",
  ErrEntry.mk 173 "" "The requested operation is not possible because of an active reconstruction.",
  ErrEntry.mk 174 "" "The requested operation is not possible as the firmware activation is pending.",
  ErrEntry.mk 175 "" "The requested operation is not possible as the PD Sanitize operation is in progress.",
  ErrEntry.mk 255 "" "Invalid status - used for polling command completion."]
/-- The match test of `StorcliError.get` against one member: for an integer
argument only the numeric code can compare equal (a Python `int` never equals
a `str`), for a string argument only the two description fields can. -/
def matchesVal : Int ⊕ String → ErrEntry → Bool
  | .inl n, e => e.code == n
  | .inr s, e => e.description == s || e.detailed == s

/-- `StorcliError.get`: scan the members in declaration order and return the
first whose value or description equals the argument, falling back to
`INVALID_STATUS`.  Total: it never raises. -/
def get (v : Int ⊕ String) : ErrEntry :=
  match table.find? (matchesVal v) with
  | some e => e
  | none => INVALID_STATUS

/-- `StorcliError.get` applied to a JSON value (as at the call sites in
`check_response_status`): a JSON number looks up by code, a JSON string by
description; a JSON boolean equals the Python int 0 or 1; values of any
other shape equal no member, so the scan falls through to the sentinel. -/
def getJ (v : JVal) : ErrEntry :=
  match v with
  | .jnum n => get (.inl n)
  | .jstr s => get (.inr s)
  | .jbool b => get (.inl (if b then 1 else 0))
  | _ => INVALID_STATUS

end StorcliError

/-! ## Exceptions

The distinct exceptions `StorCLI.run` and `check_response_status` can raise
or propagate, as one sum type.  The `pystorcli2.exc` classes themselves are
thin data carriers; their payloads are modelled from the spec's failure
taxonomy and from the raise sites in `storcli.py` (the class definitions are
not among the provided sources).  `keyError`, `indexError` and `typeError`
are the corresponding built-in Python exceptions, which nothing in
`storcli.py` catches. -/

/-- An exception escaping the modelled layer. -/
inductive RunError where
  /-- Python `KeyError` from indexing a dict with an absent key. -/
  | keyError (key : String)
  /-- Python `IndexError` from indexing an empty `Controllers` list. -/
  | indexError
  /-- Python `TypeError` from indexing or iterating a value of the wrong
  shape. -/
  | typeError
  /-- `exc.StorCliCmdErrorCode`, carrying the resolved error-code entry. -/
  | storCliCmdErrorCode (cmd : List String) (err : ErrEntry)
  /-- `exc.StorCliCmdError` whose message is formatted from a JSON value. -/
  | storCliCmdErrorVal (cmd : List String) (val : JVal)
  /-- `exc.StorCliCmdError` whose message is a plain string. -/
  | storCliCmdErrorText (cmd : List String) (msg : String)
  /-- `exc.StorCliRunTimeError` wrapping the `subprocess.CalledProcessError`
  raised for a non-zero exit code, carrying that exit code. -/
  | storCliRunTimeError (returncode : Int) (cmd : List String)
      (stdout stderr : String)

/-- Python indexing `v[k]` of a JSON value by a string key: the looked-up
value on an object with the key, `KeyError` on an object without it,
`TypeError` on any other shape. -/
def jGet (v : JVal) (k : String) : Except RunError JVal :=
  match v with
  | .jobj fields =>
    match lookupKey fields k with
    | some x => .ok x
    | none => .error (.keyError k)
  | _ => .error .typeError

/-- Python indexing `v[i]` of a JSON value by an integer: `IndexError` when
the array is too short, `TypeError` on a non-array. -/
def jIndex (v : JVal) (i : Nat) : Except RunError JVal :=
  match v with
  | .jarr elems =>
    match elems.get? i with
    | some x => .ok x
    | none => .error .indexError
  | _ => .error .typeError

/-- Python `k in v` key-membership test on a JSON object.  (At its use sites
the value has already been indexed by a string key, so it is an object.) -/
def jHasKey (v : JVal) (k : String) : Bool :=
  match v with
  | .jobj fields => (lookupKey fields k).isSome
  | _ => false

/-! ## `pystorcli2/common.py` -/

/-- `common.response_cmd`: `data[Controllers][0][Command Status]`. -/
def response_cmd (data : JVal) : Except RunError JVal :=
  match jGet data "Controllers" with
  | .error e => .error e
  | .ok ctrls =>
    match jIndex ctrls 0 with
    | .error e => .error e
    | .ok c0 => jGet c0 "Command Status"

/-- `common.response_data`: `data[Controllers][0][Response Data]`. -/
def response_data (data : JVal) : Except RunError JVal :=
  match jGet data "Controllers" with
  | .error e => .error e
  | .ok ctrls =>
    match jIndex ctrls 0 with
    | .error e => .error e
    | .ok c0 => jGet c0 "Response Data"

/-- The `Status` field of the first controller block of a response, the
feature by which success and failure responses are told apart. -/
def result_status (data : JVal) : Except RunError JVal :=
  match response_cmd data with
  | .error e => .error e
  | .ok cs => jGet cs "Status"

/-! ## `StorCLI.check_response_status` (`storcli.py`, lines 131-183) -/

/-- The `for error in cmd_status[Detailed Status]` loop.  State: the
`allowed_errors` flag (true at entry) and the `retcode` local of the
enclosing function.  For each entry: an entry whose `ErrCd` resolves outside
`allow_error_codes`, or without an `ErrCd` key, clears `allowed_errors`;
`retcode` is cleared unconditionally; then, when `allowed_errors` is clear,
the loop raises `StorCliCmdErrorCode` built from `error[ErrCd]` — which is
itself a `KeyError` when the entry has no `ErrCd` key.  Iterating a
non-object entry is modelled as `TypeError` (no verified property iterates
a `Detailed Status` whose entries are not objects). -/
def checkDetailedLoop (cmd : List String) (allow : List ErrEntry) :
    List JVal → Bool → Bool → Except RunError (Bool × Bool)
  | [], allowed_errors, retcode => .ok (allowed_errors, retcode)
  | error :: rest, allowed_errors, retcode =>
    match error with
    | .jobj fields =>
      let allowed_errors :=
        match lookupKey fields "ErrCd" with
        | some v =>
          if StorcliError.getJ v ∈ allow then allowed_errors else false
        | none => false
      if allowed_errors then checkDetailedLoop cmd allow rest allowed_errors false
      else
        match lookupKey fields "ErrCd" with
        | some v => .error (.storCliCmdErrorCode cmd (StorcliError.getJ v))
        | none => .error (.keyError "ErrCd")
    | _ =>
      -- Python would iterate the entry below with the same raises; the
      -- `retcode` assignment keeps the state faithful up to this point.
      let _ := retcode
      .error .typeError

/-- The `Description` branch of `check_response_status`: when the failing
status block has no `Detailed Status`, try to resolve its `Description`
through the error table; a resolved allowed code returns `False`, a resolved
disallowed code raises `StorCliCmdErrorCode`, and an unresolved description
(or no `Description` key) falls through to the generic `StorCliCmdError`
formatted from the status block. -/
def descriptionTail (cmd : List String) (cmd_status : JVal)
    (allow : List ErrEntry) : Except RunError Bool :=
  match cmd_status with
  | .jobj fields =>
    match lookupKey fields "Description" with
    | some desc =>
      let error_code := StorcliError.getJ desc
      if error_code ≠ StorcliError.INVALID_STATUS then
        if error_code ∈ allow then .ok false
        else .error (.storCliCmdErrorCode cmd error_code)
      else .error (.storCliCmdErrorVal cmd cmd_status)
    | none => .error (.storCliCmdErrorVal cmd cmd_status)
  | _ => .error (.storCliCmdErrorVal cmd cmd_status)

/-- `StorCLI.check_response_status`: look up the first controller's
`Command Status`; on `Status = Failure` with a `Detailed Status` run the
allow-list loop (raising as described there, and raising the generic
`StorCliCmdError` after the loop if it ever cleared `allowed_errors` without
raising), on `Status = Failure` without one take the `Description` branch;
any other status returns `True`.  Exceptions from the lookups themselves
(`KeyError`, `IndexError`, `TypeError`) propagate. -/
def check_response_status (cmd : List String) (out : JVal)
    (allow : List ErrEntry) : Except RunError Bool :=
  match response_cmd out with
  | .error e => .error e
  | .ok cmd_status =>
    match jGet cmd_status "Status" with
    | .error e => .error e
    | .ok status =>
      match status with
      | .jstr s =>
        if s = "Failure" then
          if jHasKey cmd_status "Detailed Status" then
            match jGet cmd_status "Detailed Status" with
            | .error e => .error e
            | .ok ds =>
              match ds with
              | .jarr entries =>
                match checkDetailedLoop cmd allow entries true true with
                | .error e => .error e
                | .ok (allowed_errors, retcode) =>
                  if allowed_errors then .ok retcode
                  else .error (.storCliCmdErrorVal cmd ds)
              | _ => .error .typeError
          else descriptionTail cmd cmd_status allow
        else .ok true
      | _ => .ok true

/-! ## The non-JSON fallback path of `StorCLI.run` -/

/-- Split a character list on a separator character (every occurrence). -/
def splitCharsOn (sep : Char) : List Char → List (List Char)
  | [] => [[]]
  | c :: rest =>
    if c = sep then [] :: splitCharsOn sep rest
    else
      match splitCharsOn sep rest with
      | [] => [[c]]
      | l :: ls => (c :: l) :: ls

/-- Rejoin character-list segments with a separator character. -/
def intercalateChar (sep : Char) : List (List Char) → List Char
  | [] => []
  | [l] => l
  | l :: ls => l ++ sep :: intercalateChar sep ls

/-- Python `str.splitlines` for newline-separated text: the lines, without a
trailing empty line for a trailing newline.  (The model covers `\n` line
endings, the only ones the verified properties exercise.) -/
def splitlinesModel (s : String) : List String :=
  match s.data with
  | [] => []
  | cs =>
    let parts := splitCharsOn '\n' cs
    let parts := if cs.getLast? = some '\n' then parts.dropLast else parts
    parts.map (fun l => ⟨l⟩)

/-- Characters Python `str.strip` removes from both ends. -/
def isPyWs (c : Char) : Bool :=
  c = ' ' || c = '\t' || c = '\n' || c = '\r' || c = '\x0b' || c = '\x0c'

/-- Python `str.strip()`. -/
def pyStrip (s : String) : String :=
  ⟨((s.data.dropWhile isPyWs).reverse.dropWhile isPyWs).reverse⟩

/-- Python `line.split('=', 1)` guarded by `'=' in line`: `none` when the
line has no equals sign, otherwise the text before the first equals sign and
everything after it. -/
def splitEqOnce (line : String) : Option (String × String) :=
  match splitCharsOn '=' line.data with
  | [] => none
  | [_] => none
  | k :: rest => some (⟨k⟩, ⟨intercalateChar '=' rest⟩)

/-- The permissive key=value parse of `StorCLI.run`: over the lines of
stdout, each line containing an equals sign contributes its stripped key and
stripped value to the mapping. -/
def kvParse (stdoutText : String) : List (String × String) :=
  (splitlinesModel stdoutText).foldl
    (fun parsed line =>
      match splitEqOnce line with
      | some (k, v) => objInsert parsed (pyStrip k) (pyStrip v)
      | none => parsed)
    []

/-- Substring test on character lists. -/
def containsSub (hay pat : List Char) : Bool :=
  match hay with
  | [] => pat.isEmpty
  | _ :: rest => listPrefix pat hay || containsSub rest pat

/-- The legacy banner search
`re.search((^.*)Storage.*Command.*$, stdout, MULTILINE | DOTALL)` of
`StorCLI.run`, line 232.  With `DOTALL` the dot crosses newlines, so the
anchors are satisfiable from position 0 whenever they are satisfiable at
all, and the greedy captured group is the longest prefix followed
immediately by `Storage` with `Command` occurring somewhere after it.
Returns that captured group, or `none` when the pattern does not occur. -/
def legacySearch (s : String) : Option String :=
  let cs := s.data
  let good := (List.range cs.length).filter (fun i =>
    listPrefix "Storage".data (cs.drop i)
      && containsSub (cs.drop (i + 7)) "Command".data)
  match good.getLast? with
  | some i => some ⟨cs.take i⟩
  | none => none

/-- The message text of the `json.JSONDecodeError` that `StorCLI.run`
stringifies into the final `StorCliCmdError`.  No verified property observes
the message contents, so it is modelled as a fixed diagnostic string. -/
def jsonDecodeMsg : String := "Expecting value"

/-! ## `StorCLI.run` (`storcli.py`, lines 185-252) -/

/-- A captured subprocess result (`cmdRunner.StorcliRet`). -/
structure StorcliRet where
  stdout : String
  stderr : String
  returncode : Int

/-- A command runner: a deterministic function from the full command line to
a captured result, exactly the substitutable test double the repository test
suite uses for `cmdRunner.CMDRunner.run`. -/
def Runner : Type := List String → StorcliRet

/-- The state `StorCLI.run` reads and writes: the cache-enable flag and the
response cache, keyed by the joined command-line string. -/
structure RunState where
  cache_enable : Bool
  response_cache : List (String × JVal)

/-- The full argument vector built by `StorCLI.run`: the resolved binary
path, the caller arguments, then the JSON output flag appended last. -/
def buildCmd (storcli : String) (args : List String) : List String :=
  storcli :: (args ++ ["J"])

/-- The cache key of `StorCLI.run`: the separator-less concatenation
`''.join(cmd)` of the full argument vector. -/
def cacheKeyOf (cmd : List String) : String :=
  String.join cmd

namespace StorCLI

/-- The body of `StorCLI.run` past the cache fast path: invoke the runner,
then try strict JSON decoding of stdout.  On success check the response
status (its exceptions propagate), then raise
`subprocess.CalledProcessError` for a non-zero exit code — which the outer
`except subprocess.SubprocessError` clause rewraps as
`StorCliRunTimeError` — and otherwise store the response in the cache when
caching is enabled and return it.  On a decode error, raise
`StorCliCmdError` with the captured banner text when the legacy pattern
matches; otherwise run the key=value parse and return the mapping when it
recovers a `Status` key (as a JSON object of strings, the shape of the
Python string dict), else raise `StorCliCmdError` with the decode error
message. -/
def runSpawn (runner : Runner) (cmd : List String) (key : String)
    (st : RunState) (allow : List ErrEntry) :
    Except RunError JVal × RunState :=
  let ret := runner cmd
  match jsonLoads ret.stdout with
  | some ret_json =>
    match check_response_status cmd ret_json allow with
    | .error e => (.error e, st)
    | .ok _ =>
      if ret.returncode ≠ 0 then
        (.error (.storCliRunTimeError ret.returncode cmd ret.stdout ret.stderr),
          st)
      else if st.cache_enable then
        (.ok ret_json,
          { st with response_cache := objInsert st.response_cache key ret_json })
      else (.ok ret_json, st)
  | none =>
    match legacySearch ret.stdout with
    | some captured => (.error (.storCliCmdErrorText cmd captured), st)
    | none =>
      let parsed := kvParse ret.stdout
      match lookupKey parsed "Status" with
      | some _ =>
        (.ok (JVal.jobj (parsed.map (fun p => (p.1, JVal.jstr p.2)))), st)
      | none => (.error (.storCliCmdErrorText cmd jsonDecodeMsg), st)

/-- `StorCLI.run` over one resolved cache state: build the command line and
its cache key; with caching enabled and the key cached, return the cached
response without invoking the runner; otherwise spawn.  The third component
counts how many times the runner was invoked by the call. -/
def run (storcli : String) (runner : Runner) (st : RunState)
    (args : List String) (allow : List ErrEntry) :
    Except RunError JVal × RunState × Nat :=
  let cmd := buildCmd storcli args
  let key := cacheKeyOf cmd
  if st.cache_enable then
    match lookupKey st.response_cache key with
    | some cached => (.ok cached, st, 0)
    | none =>
      let r := runSpawn runner cmd key st allow
      (r.1, r.2, 1)
  else
    let r := runSpawn runner cmd key st allow
    (r.1, r.2, 1)

end StorCLI

/-! ## Python attribute resolution for the cache state

`StorCLI` declares `__cache_enabled` and `__response_cache` as class
attributes (storcli.py, lines 51-52): every instance that has not assigned
an instance attribute of the same name resolves them to the class slots, and
`self.__response_cache[key] = value` inside `run` mutates whichever dict the
name resolves to, in place.  The `cache_enable` setter and `clear_cache`
assign through `self`, creating instance attributes.  The model below tracks
the class slots and, per instance, the optional instance attributes, for a
world of two independently constructed non-singleton instances. -/

/-- The instance-level attributes an individual `StorCLI` object may have
assigned; `none` means the name still resolves to the class slot. -/
structure InstanceAttrs where
  cache_enable : Option Bool
  response_cache : Option (List (String × JVal))

/-- A freshly constructed instance: `__init__` assigns neither attribute, so
both resolve to the class slots. -/
def freshInstance : InstanceAttrs := ⟨none, none⟩

/-- The class slots plus two instances. -/
structure TwoWorld where
  class_cache_enable : Bool
  class_cache : List (String × JVal)
  instA : InstanceAttrs
  instB : InstanceAttrs

/-- The state at interpreter start: empty class-level cache dict, caching
disabled, and two freshly constructed instances. -/
def freshTwoWorld : TwoWorld :=
  ⟨false, [], freshInstance, freshInstance⟩

/-- Which of the two instances a call goes through. -/
inductive Who where
  | A
  | B

/-- The attributes of the selected instance. -/
def TwoWorld.attrs (w : TwoWorld) : Who → InstanceAttrs
  | .A => w.instA
  | .B => w.instB

/-- Replace the attributes of the selected instance. -/
def TwoWorld.setAttrs (w : TwoWorld) : Who → InstanceAttrs → TwoWorld
  | .A, i => { w with instA := i }
  | .B, i => { w with instB := i }

/-- `self.__cache_enabled` as resolved on the selected instance. -/
def TwoWorld.effEnable (w : TwoWorld) (who : Who) : Bool :=
  (w.attrs who).cache_enable.getD w.class_cache_enable

/-- The contents of the dict `self.__response_cache` resolves to on the
selected instance. -/
def TwoWorld.effCache (w : TwoWorld) (who : Who) : List (String × JVal) :=
  (w.attrs who).response_cache.getD w.class_cache

/-- In-place mutation of the dict `self.__response_cache` resolves to: the
new contents land in the instance attribute when one exists, otherwise in
the shared class slot. -/
def TwoWorld.writeCache (w : TwoWorld) (who : Who)
    (d : List (String × JVal)) : TwoWorld :=
  match (w.attrs who).response_cache with
  | some _ => w.setAttrs who { w.attrs who with response_cache := some d }
  | none => { w with class_cache := d }

/-- The `cache_enable` setter called on the selected instance: assignment
through `self` creates an instance attribute. -/
def TwoWorld.setCacheEnable (w : TwoWorld) (who : Who) (b : Bool) : TwoWorld :=
  w.setAttrs who { w.attrs who with cache_enable := some b }

/-- `clear_cache` called on the selected instance:
`self.__response_cache = dict()` rebinds the name to a fresh instance-level
dict. -/
def TwoWorld.clearCache (w : TwoWorld) (who : Who) : TwoWorld :=
  w.setAttrs who { w.attrs who with response_cache := some [] }

/-- `StorCLI.run` called on the selected instance: resolve the cache-enable
flag and cache dict through that instance, run, and write the possibly
mutated dict contents back to whichever slot the name resolved to. -/
def TwoWorld.runOn (w : TwoWorld) (who : Who) (storcli : String)
    (runner : Runner) (args : List String) (allow : List ErrEntry) :
    Except RunError JVal × TwoWorld × Nat :=
  let st : RunState := ⟨w.effEnable who, w.effCache who⟩
  let r := StorCLI.run storcli runner st args allow
  (r.1, w.writeCache who r.2.1.response_cache, r.2.2)

/-! ## Helper lemmas -/

theorem lookupKey_objInsert_self {α : Type} (d : List (String × α)) (k : String)
    (v : α) : lookupKey (objInsert d k v) k = some v := by
  induction d with
  | nil => simp [objInsert, lookupKey]
  | cons p rest ih =>
    obtain ⟨k0, v0⟩ := p
    by_cases h : k0 = k
    · subst h
      simp [objInsert, lookupKey]
    · simp [objInsert, lookupKey, h, ih]

/-- An entry whose `ErrCd` resolves to an allowed code, the shape that lets
the detailed-status loop move on. -/
def AllowedEntry (allow : List ErrEntry) (e : JVal) : Prop :=
  ∃ f w, e = JVal.jobj f ∧ lookupKey f "ErrCd" = some w
    ∧ StorcliError.getJ w ∈ allow

theorem checkDetailedLoop_all_allowed (cmd : List String)
    (allow : List ErrEntry) (l : List JVal) (rc : Bool)
    (h : ∀ e ∈ l, AllowedEntry allow e) :
    ∃ rc2, checkDetailedLoop cmd allow l true rc = .ok (true, rc2) := by
  induction l generalizing rc with
  | nil => exact ⟨rc, rfl⟩
  | cons e rest ih =>
    obtain ⟨f, w, he, hw, hmem⟩ := h e (by simp)
    subst he
    obtain ⟨rc2, hr⟩ := ih false (fun x hx => h x (by simp [hx]))
    exact ⟨rc2, by simp [checkDetailedLoop, hw, hmem, hr]⟩

theorem checkDetailedLoop_append_allowed (cmd : List String)
    (allow : List ErrEntry) (pre rest : List JVal) (rc : Bool)
    (h : ∀ e ∈ pre, AllowedEntry allow e) :
    ∃ rc2, checkDetailedLoop cmd allow (pre ++ rest) true rc
      = checkDetailedLoop cmd allow rest true rc2 := by
  induction pre generalizing rc with
  | nil => exact ⟨rc, rfl⟩
  | cons e p ih =>
    obtain ⟨f, w, he, hw, hmem⟩ := h e (by simp)
    subst he
    obtain ⟨rc2, hr⟩ := ih false (fun x hx => h x (by simp [hx]))
    exact ⟨rc2, by simp [checkDetailedLoop, hw, hmem, hr]⟩

theorem check_response_status_ok_of_status (cmd : List String) (out : JVal)
    (allow : List ErrEntry) (cs : JVal) (s : String)
    (hcs : response_cmd out = .ok cs)
    (hst : jGet cs "Status" = .ok (JVal.jstr s))
    (hne : s ≠ "Failure") :
    check_response_status cmd out allow = .ok true := by
  simp [check_response_status, hcs, hst, hne]

theorem check_response_status_allowed_failure (cmd : List String) (out : JVal)
    (allow : List ErrEntry) (cs : JVal) (entries : List JVal)
    (hcs : response_cmd out = .ok cs)
    (hst : jGet cs "Status" = .ok (JVal.jstr "Failure"))
    (hhas : jHasKey cs "Detailed Status" = true)
    (hds : jGet cs "Detailed Status" = .ok (JVal.jarr entries))
    (hall : ∀ e ∈ entries, AllowedEntry allow e) :
    ∃ b, check_response_status cmd out allow = .ok b := by
  obtain ⟨rc2, hl⟩ := checkDetailedLoop_all_allowed cmd allow entries true hall
  exact ⟨rc2, by simp [check_response_status, hcs, hst, hhas, hds, hl]⟩

theorem run_eq_spawn (storcli : String) (runner : Runner) (st : RunState)
    (args : List String) (allow : List ErrEntry)
    (hmiss : st.cache_enable = true →
      lookupKey st.response_cache (cacheKeyOf (buildCmd storcli args)) = none) :
    StorCLI.run storcli runner st args allow
      = ((StorCLI.runSpawn runner (buildCmd storcli args)
            (cacheKeyOf (buildCmd storcli args)) st allow).1,
         (StorCLI.runSpawn runner (buildCmd storcli args)
            (cacheKeyOf (buildCmd storcli args)) st allow).2, 1) := by
  by_cases he : st.cache_enable
  · simp [StorCLI.run, he, hmiss he]
  · simp [StorCLI.run, he]

theorem runSpawn_success (runner : Runner) (cmd : List String) (key : String)
    (st : RunState) (allow : List ErrEntry) (j : JVal) (b : Bool)
    (hjson : jsonLoads (runner cmd).stdout = some j)
    (hchk : check_response_status cmd j allow = .ok b)
    (hrc : (runner cmd).returncode = 0) :
    StorCLI.runSpawn runner cmd key st allow
      = (.ok j,
         if st.cache_enable then
           { st with response_cache := objInsert st.response_cache key j }
         else st) := by
  simp [StorCLI.runSpawn, hjson, hchk, hrc]
  split <;> simp

theorem runSpawn_check_error (runner : Runner) (cmd : List String)
    (key : String) (st : RunState) (allow : List ErrEntry) (j : JVal)
    (e : RunError)
    (hjson : jsonLoads (runner cmd).stdout = some j)
    (hchk : check_response_status cmd j allow = .error e) :
    StorCLI.runSpawn runner cmd key st allow = (.error e, st) := by
  simp [StorCLI.runSpawn, hjson, hchk]

/-! ## Claim C8 -/

/-- C8: for every error code present in the error-code table, looking that
integer code up returns the entry whose numeric value equals the code;
looking up any integer or string that matches no entry's code or
description returns the `INVALID_STATUS` sentinel entry, whose code is 255;
and the lookup is a total function, so it never raises. -/
theorem c8_error_table_roundtrip :
    (∀ e ∈ StorcliError.table,
        (StorcliError.get (Sum.inl e.code)).code = e.code)
    ∧ (∀ v : Int ⊕ String,
        (∀ e ∈ StorcliError.table, StorcliError.matchesVal v e = false) →
          StorcliError.get v = StorcliError.INVALID_STATUS)
    ∧ StorcliError.INVALID_STATUS.code = 255 := by
  refine ⟨by decide, ?_, rfl⟩
  intro v h
  have hn : StorcliError.table.find? (StorcliError.matchesVal v) = none := by
    rw [List.find?_eq_none]
    intro e he
    simp [h e he]
  simp [StorcliError.get, hn]

/-- Witness for C8: the incomplete-foreign-configuration code 59 round-trips,
and the unlisted code 1000 falls to the sentinel. -/
theorem c8_error_table_roundtrip_witness :
    (StorcliError.get (Sum.inl 59)).code = 59
    ∧ StorcliError.get (Sum.inl 1000) = StorcliError.INVALID_STATUS := by
  constructor
  · exact c8_error_table_roundtrip.1
      (ErrEntry.mk 59 "Incomplete foreign configuration"
        "Returned in case if foreign configurations are incomplete.")
      (by decide)
  · exact c8_error_table_roundtrip.2.1 (Sum.inl 1000) (by decide)

/-! ## Concrete stub runners

Deterministic command runners returning canned output, in the mould of the
test suite's `StorcliCMDFile` double. -/

/-- The spec's concrete success stub output. -/
def successStdout : String :=
  "\x7b\"Controllers\":[\x7b\"Command Status\":\x7b\"Status\":\"Success\"\x7d,\"Response Data\":\x7b\"Number of Controllers\":1\x7d\x7d]\x7d"

/-- The decoding of `successStdout`. -/
def successJson : JVal :=
  JVal.jobj [("Controllers", JVal.jarr [JVal.jobj
    [("Command Status", JVal.jobj [("Status", JVal.jstr "Success")]),
     ("Response Data", JVal.jobj [("Number of Controllers", JVal.jnum 1)])]])]

/-- The `Response Data` payload inside `successMyJson`. -/
def successPayload : JVal :=
  JVal.jobj [("Number of Controllers", JVal.jnum 1)]

/-- A stub runner answering every command with `successStdout`, exit 0. -/
def successRunner : Runner := fun _ => ⟨successStdout, "", 0⟩

/-- The spec's concrete failure stub output: status `Failure` with
`Detailed Status: [ErrCd 59]`. -/
def failStdout : String :=
  "\x7b\"Controllers\":[\x7b\"Command Status\":\x7b\"Status\":\"Failure\",\"Detailed Status\":[\x7b\"ErrCd\":59,\"ErrMsg\":\"Incomplete foreign configuration\"\x7d]\x7d\x7d]\x7d"

/-- The decoding of `failStdout`. -/
def failJson : JVal :=
  JVal.jobj [("Controllers", JVal.jarr [JVal.jobj
    [("Command Status", JVal.jobj
      [("Status", JVal.jstr "Failure"),
       ("Detailed Status", JVal.jarr [JVal.jobj
         [("ErrCd", JVal.jnum 59),
          ("ErrMsg", JVal.jstr "Incomplete foreign configuration")]])])]])]

/-- A stub runner answering every command with `failStdout`, exit 0. -/
def failRunner : Runner := fun _ => ⟨failStdout, "", 0⟩

/-- The error-table entry for code 59. -/
def incompleteForeign : ErrEntry :=
  ErrEntry.mk 59 "Incomplete foreign configuration"
    "Returned in case if foreign configurations are incomplete."

/-! ## Claim C1 -/

/-- C1 counterexample: on the claim's concrete stub, `run` returns the whole
decoded `Controllers` structure, not the `Response Data` payload
`\x7b"Number of Controllers": 1\x7d` the claim asserts. -/
theorem c1_counterexample :
    (StorCLI.run "storcli64" successRunner ⟨false, []⟩ ["/c0", "show"] []).1
      = .ok successJson
    ∧ successJson ≠ successPayload := by
  refine ⟨rfl, fun h => ?_⟩
  exact absurd (congrArg jTopKeys h) (by decide)

/-- C1 (amended): for every call to `StorCLI.run` whose command runner
returns exit code 0 and stdout that is well-formed JSON whose first
controller block's `Command Status` has `Status = Success`, `run` raises
nothing and returns the full parsed JSON response; the `Response Data`
payload of the first controller block is then extracted from that return by
`common.response_data` — for the concrete stub output it is
`\x7b"Number of Controllers": 1\x7d`. -/
theorem c1_run_returns_full_response (storcli : String) (runner : Runner)
    (st : RunState) (args : List String) (allow : List ErrEntry) (j cs : JVal)
    (hmiss : st.cache_enable = true →
      lookupKey st.response_cache (cacheKeyOf (buildCmd storcli args)) = none)
    (hjson : jsonLoads (runner (buildCmd storcli args)).stdout = some j)
    (hcs : response_cmd j = .ok cs)
    (hst : jGet cs "Status" = .ok (JVal.jstr "Success"))
    (hrc : (runner (buildCmd storcli args)).returncode = 0) :
    (StorCLI.run storcli runner st args allow).1 = .ok j
    ∧ response_data successJson = .ok successPayload := by
  have hchk := check_response_status_ok_of_status (buildCmd storcli args) j
    allow cs "Success" hcs hst (by decide)
  have hsp := runSpawn_success runner (buildCmd storcli args)
    (cacheKeyOf (buildCmd storcli args)) st allow j true hjson hchk hrc
  rw [run_eq_spawn storcli runner st args allow hmiss, hsp]
  exact ⟨rfl, rfl⟩

/-- Witness for C1: the amended statement at the concrete stub. -/
theorem c1_run_returns_full_response_witness :
    (StorCLI.run "storcli64" successRunner ⟨false, []⟩ ["/c0", "show"] []).1
      = .ok successJson
    ∧ response_data successJson = .ok successPayload :=
  c1_run_returns_full_response "storcli64" successRunner ⟨false, []⟩
    ["/c0", "show"] [] successJson (JVal.jobj [("Status", JVal.jstr "Success")])
    (fun _ => rfl) rfl rfl rfl rfl

/-! ## Claim C2 -/

/-- C2: for every call to `StorCLI.run` whose runner returns exit code 0 and
JSON whose first controller's `Command Status` has `Status = Failure` and a
`Detailed Status` list in which every entry's `ErrCd` resolves to a member
of `allow_error_codes`, `run` raises nothing and returns the parsed failure
response — a result whose first controller status is `Failure`, hence
distinguishable from (never equal to) any result whose status is
`Success`. -/
theorem c2_allowed_failure_is_soft (storcli : String) (runner : Runner)
    (st : RunState) (args : List String) (allow : List ErrEntry) (j cs : JVal)
    (entries : List JVal)
    (hmiss : st.cache_enable = true →
      lookupKey st.response_cache (cacheKeyOf (buildCmd storcli args)) = none)
    (hjson : jsonLoads (runner (buildCmd storcli args)).stdout = some j)
    (hcs : response_cmd j = .ok cs)
    (hst : jGet cs "Status" = .ok (JVal.jstr "Failure"))
    (hhas : jHasKey cs "Detailed Status" = true)
    (hds : jGet cs "Detailed Status" = .ok (JVal.jarr entries))
    (hall : ∀ e ∈ entries, AllowedEntry allow e)
    (hrc : (runner (buildCmd storcli args)).returncode = 0) :
    (StorCLI.run storcli runner st args allow).1 = .ok j
    ∧ result_status j = .ok (JVal.jstr "Failure")
    ∧ ∀ jok : JVal, result_status jok = .ok (JVal.jstr "Success") → j ≠ jok := by
  obtain ⟨b, hchk⟩ := check_response_status_allowed_failure
    (buildCmd storcli args) j allow cs entries hcs hst hhas hds hall
  have hsp := runSpawn_success runner (buildCmd storcli args)
    (cacheKeyOf (buildCmd storcli args)) st allow j b hjson hchk hrc
  have hfail : result_status j = .ok (JVal.jstr "Failure") := by
    simp [result_status, hcs, hst]
  refine ⟨?_, hfail, ?_⟩
  · rw [run_eq_spawn storcli runner st args allow hmiss, hsp]
  · intro jok hok heq
    rw [← heq, hfail] at hok
    injection hok with h1
    injection h1 with h2
    exact absurd h2 (by decide)

/-- Witness for C2: the concrete `ErrCd 59` failure stub with code 59
allowed. -/
theorem c2_allowed_failure_is_soft_witness :
    (StorCLI.run "storcli64" failRunner ⟨false, []⟩ ["/c0/fall", "show"]
        [incompleteForeign]).1 = .ok failJson
    ∧ result_status failJson = .ok (JVal.jstr "Failure")
    ∧ ∀ jok : JVal, result_status jok = .ok (JVal.jstr "Success")
        → failJson ≠ jok :=
  c2_allowed_failure_is_soft "storcli64" failRunner ⟨false, []⟩
    ["/c0/fall", "show"] [incompleteForeign] failJson
    (JVal.jobj
      [("Status", JVal.jstr "Failure"),
       ("Detailed Status", JVal.jarr [JVal.jobj
         [("ErrCd", JVal.jnum 59),
          ("ErrMsg", JVal.jstr "Incomplete foreign configuration")]])])
    [JVal.jobj
      [("ErrCd", JVal.jnum 59),
       ("ErrMsg", JVal.jstr "Incomplete foreign configuration")]]
    (fun _ => rfl) rfl rfl rfl rfl rfl
    (by
      intro e he
      cases he with
      | head =>
        exact ⟨[("ErrCd", JVal.jnum 59),
                ("ErrMsg", JVal.jstr "Incomplete foreign configuration")],
               JVal.jnum 59, rfl, rfl, by decide⟩
      | tail _ h => cases h)
    rfl

/-! ## Claim C3 -/

/-- C3: for every call to `StorCLI.run` whose runner returns JSON whose
first controller's `Command Status` has `Status = Failure` and a
`Detailed Status` list containing, after some prefix of entries whose
`ErrCd` resolves inside `allow_error_codes`, a first entry whose `ErrCd`
resolves outside it, `run` raises `StorCliCmdErrorCode` carrying that first
disallowed entry's resolved error code. -/
theorem c3_disallowed_failure_raises (storcli : String) (runner : Runner)
    (st : RunState) (args : List String) (allow : List ErrEntry) (j cs : JVal)
    (pre post : List JVal) (fields : List (String × JVal)) (v : JVal)
    (hmiss : st.cache_enable = true →
      lookupKey st.response_cache (cacheKeyOf (buildCmd storcli args)) = none)
    (hjson : jsonLoads (runner (buildCmd storcli args)).stdout = some j)
    (hcs : response_cmd j = .ok cs)
    (hst : jGet cs "Status" = .ok (JVal.jstr "Failure"))
    (hhas : jHasKey cs "Detailed Status" = true)
    (hds : jGet cs "Detailed Status"
      = .ok (JVal.jarr (pre ++ JVal.jobj fields :: post)))
    (hpre : ∀ e ∈ pre, AllowedEntry allow e)
    (hv : lookupKey fields "ErrCd" = some v)
    (hnot : StorcliError.getJ v ∉ allow) :
    (StorCLI.run storcli runner st args allow).1
      = .error (.storCliCmdErrorCode (buildCmd storcli args)
          (StorcliError.getJ v)) := by
  obtain ⟨rc2, hl⟩ := checkDetailedLoop_append_allowed (buildCmd storcli args)
    allow pre (JVal.jobj fields :: post) true hpre
  have hstep : checkDetailedLoop (buildCmd storcli args) allow
      (JVal.jobj fields :: post) true rc2
      = .error (.storCliCmdErrorCode (buildCmd storcli args)
          (StorcliError.getJ v)) := by
    simp [checkDetailedLoop, hv, hnot]
  have hchk : check_response_status (buildCmd storcli args) j allow
      = .error (.storCliCmdErrorCode (buildCmd storcli args)
          (StorcliError.getJ v)) := by
    simp [check_response_status, hcs, hst, hhas, hds, hl, hstep]
  rw [run_eq_spawn storcli runner st args allow hmiss,
    runSpawn_check_error runner (buildCmd storcli args)
      (cacheKeyOf (buildCmd storcli args)) st allow j _ hjson hchk]

/-- Witness for C3: the concrete `ErrCd 59` failure stub with an empty
allow-list raises `StorCliCmdErrorCode` carrying entry 59. -/
theorem c3_disallowed_failure_raises_witness :
    (StorCLI.run "storcli64" failRunner ⟨false, []⟩ ["/c0/fall", "show"] []).1
      = .error (.storCliCmdErrorCode (buildCmd "storcli64" ["/c0/fall", "show"])
          (StorcliError.getJ (JVal.jnum 59))) :=
  c3_disallowed_failure_raises "storcli64" failRunner ⟨false, []⟩
    ["/c0/fall", "show"] [] failJson
    (JVal.jobj
      [("Status", JVal.jstr "Failure"),
       ("Detailed Status", JVal.jarr [JVal.jobj
         [("ErrCd", JVal.jnum 59),
          ("ErrMsg", JVal.jstr "Incomplete foreign configuration")]])])
    [] []
    [("ErrCd", JVal.jnum 59),
     ("ErrMsg", JVal.jstr "Incomplete foreign configuration")]
    (JVal.jnum 59)
    (fun _ => rfl) rfl rfl rfl rfl rfl
    (fun e he => absurd he (List.not_mem_nil e))
    rfl (by decide)

/-! ## Claim C4 -/

/-- A stub runner whose stdout is recoverable key=value text (not JSON) and
whose exit code is non-zero. -/
def fallbackExit1Runner : Runner :=
  fun _ => ⟨"Status = Failure\nFoo = Bar", "", 1⟩

/-- A stub runner whose stdout is the JSON success output but whose exit
code is 2. -/
def jsonExit2Runner : Runner := fun _ => ⟨successStdout, "boom", 2⟩

/-- C4 counterexample: with stdout that is not JSON but whose key=value
fallback parse recovers a `Status` key, and exit code 1, `run` raises
nothing and returns the fallback mapping — so a non-zero exit code does not
cause a raise on the fallback path, contrary to the claim. -/
theorem c4_counterexample :
    (StorCLI.run "storcli64" fallbackExit1Runner ⟨false, []⟩ ["/c0", "show"]
        []).1
      = .ok (JVal.jobj
          [("Status", JVal.jstr "Failure"), ("Foo", JVal.jstr "Bar")])
    ∧ (fallbackExit1Runner (buildCmd "storcli64" ["/c0", "show"])).returncode
        = 1 :=
  ⟨rfl, rfl⟩

/-- C4 (amended): a non-zero process exit code fails the call only on the
JSON path: when stdout decodes as JSON and status checking raises nothing,
a non-zero exit code makes `run` raise the process-failure error
(`StorCliRunTimeError` wrapping `subprocess.CalledProcessError`) carrying
that exit code; on the key=value fallback path the exit code is ignored and
the recovered mapping is returned, as the concrete fallback stub with exit
code 1 shows. -/
theorem c4_exit_code_json_path_only (storcli : String) (runner : Runner)
    (st : RunState) (args : List String) (allow : List ErrEntry) (j : JVal)
    (b : Bool)
    (hmiss : st.cache_enable = true →
      lookupKey st.response_cache (cacheKeyOf (buildCmd storcli args)) = none)
    (hjson : jsonLoads (runner (buildCmd storcli args)).stdout = some j)
    (hchk : check_response_status (buildCmd storcli args) j allow = .ok b)
    (hrc : (runner (buildCmd storcli args)).returncode ≠ 0) :
    (StorCLI.run storcli runner st args allow).1
      = .error (.storCliRunTimeError
          (runner (buildCmd storcli args)).returncode (buildCmd storcli args)
          (runner (buildCmd storcli args)).stdout
          (runner (buildCmd storcli args)).stderr)
    ∧ (StorCLI.run "storcli64" fallbackExit1Runner ⟨false, []⟩ ["/c0", "show"]
          []).1
        = .ok (JVal.jobj
            [("Status", JVal.jstr "Failure"), ("Foo", JVal.jstr "Bar")]) := by
  refine ⟨?_, rfl⟩
  rw [run_eq_spawn storcli runner st args allow hmiss]
  simp [StorCLI.runSpawn, hjson, hchk, hrc]

/-- Witness for C4: the JSON success stub with exit code 2 raises the
process-failure error carrying exit code 2. -/
theorem c4_exit_code_json_path_only_witness :
    (StorCLI.run "storcli64" jsonExit2Runner ⟨false, []⟩ ["/c0", "show"] []).1
      = .error (.storCliRunTimeError 2 (buildCmd "storcli64" ["/c0", "show"])
          successStdout "boom")
    ∧ (StorCLI.run "storcli64" fallbackExit1Runner ⟨false, []⟩ ["/c0", "show"]
          []).1
        = .ok (JVal.jobj
            [("Status", JVal.jstr "Failure"), ("Foo", JVal.jstr "Bar")]) :=
  c4_exit_code_json_path_only "storcli64" jsonExit2Runner ⟨false, []⟩
    ["/c0", "show"] [] successJson true (fun _ => rfl) rfl rfl (by decide)

/-! ## Claim C5 -/

/-- A stub runner whose stdout is valid JSON without a `Controllers` key. -/
def noControllersRunner : Runner := fun _ => ⟨"\x7b\"A\": 1\x7d", "", 0⟩

/-- C5 counterexample: on valid JSON lacking a top-level `Controllers` key,
`run` neither falls through to the key=value parse nor raises the
documented malformed-output error: it raises an uncaught Python `KeyError`
for `Controllers` out of `common.response_cmd`. -/
theorem c5_counterexample :
    StorCLI.run "storcli64" noControllersRunner ⟨false, []⟩ ["/c0", "show"] []
      = (.error (.keyError "Controllers"), ⟨false, []⟩, 1) := rfl

/-- C5 (amended): for every call whose runner returns stdout that is valid
JSON (an object) without a top-level `Controllers` key, `run` propagates
the `KeyError` raised by `common.response_cmd` inside
`check_response_status` — an untyped error outside the documented failure
taxonomy; the missing key is not treated as a decode failure and the
key=value fallback parse is never attempted. -/
theorem c5_missing_controllers_keyerror (storcli : String) (runner : Runner)
    (st : RunState) (args : List String) (allow : List ErrEntry)
    (fields : List (String × JVal))
    (hmiss : st.cache_enable = true →
      lookupKey st.response_cache (cacheKeyOf (buildCmd storcli args)) = none)
    (hjson : jsonLoads (runner (buildCmd storcli args)).stdout
      = some (JVal.jobj fields))
    (hnone : lookupKey fields "Controllers" = none) :
    (StorCLI.run storcli runner st args allow).1
      = .error (.keyError "Controllers") := by
  have hchk : check_response_status (buildCmd storcli args) (JVal.jobj fields)
      allow = .error (.keyError "Controllers") := by
    simp [check_response_status, response_cmd, jGet, hnone]
  rw [run_eq_spawn storcli runner st args allow hmiss,
    runSpawn_check_error runner (buildCmd storcli args)
      (cacheKeyOf (buildCmd storcli args)) st allow (JVal.jobj fields) _
      hjson hchk]

/-- Witness for C5: the concrete no-`Controllers` stub. -/
theorem c5_missing_controllers_keyerror_witness :
    (StorCLI.run "storcli64" noControllersRunner ⟨false, []⟩ ["/c0", "show"]
        []).1 = .error (.keyError "Controllers") :=
  c5_missing_controllers_keyerror "storcli64" noControllersRunner ⟨false, []⟩
    ["/c0", "show"] [] [("A", JVal.jnum 1)] (fun _ => rfl) rfl rfl

/-! ## Claim C6 -/

/-- C6: with caching enabled, calling `run` twice with identical arguments —
the first call completing successfully with `Status = Success` and exit
code 0 — invokes the runner at most once across the two calls, and the
second call's result equals the first's. -/
theorem c6_cache_idempotent (storcli : String) (runner : Runner)
    (st : RunState) (args : List String) (allow : List ErrEntry) (j cs : JVal)
    (hen : st.cache_enable = true)
    (hjson : jsonLoads (runner (buildCmd storcli args)).stdout = some j)
    (hcs : response_cmd j = .ok cs)
    (hst : jGet cs "Status" = .ok (JVal.jstr "Success"))
    (hrc : (runner (buildCmd storcli args)).returncode = 0) :
    (StorCLI.run storcli runner st args allow).2.2
      + (StorCLI.run storcli runner
          (StorCLI.run storcli runner st args allow).2.1 args allow).2.2 ≤ 1
    ∧ (StorCLI.run storcli runner
        (StorCLI.run storcli runner st args allow).2.1 args allow).1
      = (StorCLI.run storcli runner st args allow).1 := by
  have hchk := check_response_status_ok_of_status (buildCmd storcli args) j
    allow cs "Success" hcs hst (by decide)
  cases hc : lookupKey st.response_cache (cacheKeyOf (buildCmd storcli args))
      with
  | some cached =>
    have h1 : StorCLI.run storcli runner st args allow = (.ok cached, st, 0) :=
      by simp [StorCLI.run, hen, hc]
    rw [h1]
    simp [StorCLI.run, hen, hc]
  | none =>
    have hsp := runSpawn_success runner (buildCmd storcli args)
      (cacheKeyOf (buildCmd storcli args)) st allow j true hjson hchk hrc
    rw [run_eq_spawn storcli runner st args allow (fun _ => hc), hsp]
    simp [hen, StorCLI.run, lookupKey_objInsert_self]

/-- Witness for C6: two identical calls against the success stub with
caching enabled starting from an empty cache. -/
theorem c6_cache_idempotent_witness :
    (StorCLI.run "storcli64" successRunner ⟨true, []⟩ ["/c0", "show"] []).2.2
      + (StorCLI.run "storcli64" successRunner
          (StorCLI.run "storcli64" successRunner ⟨true, []⟩ ["/c0", "show"]
            []).2.1 ["/c0", "show"] []).2.2 ≤ 1
    ∧ (StorCLI.run "storcli64" successRunner
        (StorCLI.run "storcli64" successRunner ⟨true, []⟩ ["/c0", "show"]
          []).2.1 ["/c0", "show"] []).1
      = (StorCLI.run "storcli64" successRunner ⟨true, []⟩ ["/c0", "show"]
          []).1 :=
  c6_cache_idempotent "storcli64" successRunner ⟨true, []⟩ ["/c0", "show"] []
    successJson (JVal.jobj [("Status", JVal.jstr "Success")])
    rfl rfl rfl rfl rfl

/-! ## Claim C7 -/

/-- C7: the claim — that with singleton mode disabled the response cache is
instance-scoped, so a response cached by one freshly constructed instance
is never served from cache to another — is violated by the code:
`__response_cache` is a class attribute and `run` mutates the dict it
resolves to in place, so with two fresh instances (neither of which has
rebound the attribute via `clear_cache` or the `cache` setter), a run on
instance A writes into the shared class-level dict and the next run of the
same command line on instance B is served from cache, with the runner never
invoked.  Demonstrated at the concrete failing input. -/
theorem c7_cache_shared_across_instances :
    (((freshTwoWorld.setCacheEnable Who.A true).setCacheEnable Who.B
        true).runOn Who.A "storcli64" successRunner ["/c0", "show"] []).2.2 = 1
    ∧ ((((freshTwoWorld.setCacheEnable Who.A true).setCacheEnable Who.B
          true).runOn Who.A "storcli64" successRunner ["/c0", "show"]
          []).2.1.runOn Who.B "storcli64" successRunner ["/c0", "show"]
          []).2.2 = 0
    ∧ ((((freshTwoWorld.setCacheEnable Who.A true).setCacheEnable Who.B
          true).runOn Who.A "storcli64" successRunner ["/c0", "show"]
          []).2.1.runOn Who.B "storcli64" successRunner ["/c0", "show"]
          []).1
      = .ok successJson :=
  ⟨rfl, rfl, rfl⟩

/-! ## Claim C9 -/

/-- C9: the cache key is the separator-less concatenation of the binary
path, the caller arguments and the trailing `J` flag; it is not injective —
the distinct argument lists `[/c0, show]` and `[/c0sh, ow]` share a key —
and with caching enabled a response cached for the first is served to a
later run of the second without invoking the runner. -/
theorem c9_cache_key_collision :
    ["/c0", "show"] ≠ ["/c0sh", "ow"]
    ∧ cacheKeyOf (buildCmd "storcli64" ["/c0", "show"])
        = cacheKeyOf (buildCmd "storcli64" ["/c0sh", "ow"])
    ∧ (StorCLI.run "storcli64" successRunner
        (StorCLI.run "storcli64" successRunner ⟨true, []⟩ ["/c0", "show"]
          []).2.1 ["/c0sh", "ow"] []).2.2 = 0
    ∧ (StorCLI.run "storcli64" successRunner
        (StorCLI.run "storcli64" successRunner ⟨true, []⟩ ["/c0", "show"]
          []).2.1 ["/c0sh", "ow"] []).1
      = (StorCLI.run "storcli64" successRunner ⟨true, []⟩ ["/c0", "show"]
          []).1 :=
  ⟨by decide, rfl, rfl, rfl⟩

/-! ## Claim C10 -/

/-- A failing response whose `Detailed Status` has a disallowed `ErrCd 1`
entry before an entry with no `ErrCd` key. -/
def mixedDetailedOut : JVal :=
  JVal.jobj [("Controllers", JVal.jarr [JVal.jobj
    [("Command Status", JVal.jobj
      [("Status", JVal.jstr "Failure"),
       ("Detailed Status", JVal.jarr
         [JVal.jobj [("ErrCd", JVal.jnum 1)], JVal.jobj []])])]])]

/-- C10 counterexample: with a `Detailed Status` of
`[\x7bErrCd: 1\x7d, \x7b\x7d]` and an empty allow-list, the entry without
`ErrCd` does not produce a `KeyError`: the earlier disallowed entry raises
`StorCliCmdErrorCode` first, so the claimed behaviour does not hold
regardless of `allow_error_codes`. -/
theorem c10_counterexample :
    check_response_status ["storcli64", "/c0", "show", "J"] mixedDetailedOut []
      = .error (.storCliCmdErrorCode ["storcli64", "/c0", "show", "J"]
          (StorcliError.get (Sum.inl 1))) := rfl

/-- A stub runner whose response's `Detailed Status` is `[\x7b\x7d]`: its
first entry has no `ErrCd` key. -/
def noErrCdRunner : Runner :=
  fun _ =>
    ⟨"\x7b\"Controllers\":[\x7b\"Command Status\":\x7b\"Status\":\"Failure\",\"Detailed Status\":[\x7b\x7d]\x7d\x7d]\x7d",
     "", 0⟩

/-- C10 (amended): when the first controller's `Command Status` has
`Status = Failure` and the first entry of its `Detailed Status` list that
is not an allowed-`ErrCd` object lacks the `ErrCd` key, both
`check_response_status` and `run` raise the untyped Python `KeyError` from
indexing `error[ErrCd]` on that entry — in particular regardless of
`allow_error_codes` whenever the `ErrCd`-less entry comes first; but when a
disallowed-`ErrCd` entry precedes it, `StorCliCmdErrorCode` is raised for
that earlier entry instead. -/
theorem c10_keyerror_first_bad_entry (storcli : String) (runner : Runner)
    (st : RunState) (args : List String) (allow : List ErrEntry) (j cs : JVal)
    (pre post : List JVal) (fields : List (String × JVal))
    (hmiss : st.cache_enable = true →
      lookupKey st.response_cache (cacheKeyOf (buildCmd storcli args)) = none)
    (hjson : jsonLoads (runner (buildCmd storcli args)).stdout = some j)
    (hcs : response_cmd j = .ok cs)
    (hst : jGet cs "Status" = .ok (JVal.jstr "Failure"))
    (hhas : jHasKey cs "Detailed Status" = true)
    (hds : jGet cs "Detailed Status"
      = .ok (JVal.jarr (pre ++ JVal.jobj fields :: post)))
    (hpre : ∀ e ∈ pre, AllowedEntry allow e)
    (hnone : lookupKey fields "ErrCd" = none) :
    check_response_status (buildCmd storcli args) j allow
      = .error (.keyError "ErrCd")
    ∧ (StorCLI.run storcli runner st args allow).1
      = .error (.keyError "ErrCd") := by
  obtain ⟨rc2, hl⟩ := checkDetailedLoop_append_allowed (buildCmd storcli args)
    allow pre (JVal.jobj fields :: post) true hpre
  have hstep : checkDetailedLoop (buildCmd storcli args) allow
      (JVal.jobj fields :: post) true rc2 = .error (.keyError "ErrCd") := by
    simp [checkDetailedLoop, hnone]
  have hchk : check_response_status (buildCmd storcli args) j allow
      = .error (.keyError "ErrCd") := by
    simp [check_response_status, hcs, hst, hhas, hds, hl, hstep]
  refine ⟨hchk, ?_⟩
  rw [run_eq_spawn storcli runner st args allow hmiss,
    runSpawn_check_error runner (buildCmd storcli args)
      (cacheKeyOf (buildCmd storcli args)) st allow j _ hjson hchk]

/-- Witness for C10: the stub whose `Detailed Status` is `[\x7b\x7d]`
raises `KeyError` for `ErrCd` through `run`. -/
theorem c10_keyerror_first_bad_entry_witness :
    check_response_status (buildCmd "storcli64" ["/c0", "show"])
        (JVal.jobj [("Controllers", JVal.jarr [JVal.jobj
          [("Command Status", JVal.jobj
            [("Status", JVal.jstr "Failure"),
             ("Detailed Status", JVal.jarr [JVal.jobj []])])]])]) []
      = .error (.keyError "ErrCd")
    ∧ (StorCLI.run "storcli64" noErrCdRunner ⟨false, []⟩ ["/c0", "show"]
        []).1 = .error (.keyError "ErrCd") :=
  c10_keyerror_first_bad_entry "storcli64" noErrCdRunner ⟨false, []⟩
    ["/c0", "show"] []
    (JVal.jobj [("Controllers", JVal.jarr [JVal.jobj
      [("Command Status", JVal.jobj
        [("Status", JVal.jstr "Failure"),
         ("Detailed Status", JVal.jarr [JVal.jobj []])])]])])
    (JVal.jobj
      [("Status", JVal.jstr "Failure"),
       ("Detailed Status", JVal.jarr [JVal.jobj []])])
    [] [] []
    (fun _ => rfl) rfl rfl rfl rfl rfl
    (fun e he => absurd he (List.not_mem_nil e))
    rfl
